import Mathlib

/-
Verification of the vanity-address engine of pump-fun-launcher
(src/vanity_address.rs together with its consumers in src/create_token.rs
and src/main.rs).

Shallow embedding conventions:
* A Solana keypair is abstracted to the base-58 text of its public key
  (a `String`); keypair generation (`Keypair::new()`) becomes an explicit
  candidate stream `gen : Nat -> String` giving the address text of the
  i-th keypair the process would generate.
* The parallel batch of `(0..100_000).into_par_iter()` is modelled as a
  sequential scan of the next 100000 candidates with early exit on the
  first match; only a matching candidate is ever stored into `result`,
  exactly as in the source.  The unbounded `while !found` loop receives a
  fuel parameter (number of rounds): `none` models only non-termination,
  never a non-matching answer.
* Process environment access (`std::env::var("VANITY_ENABLED")`) becomes a
  parameter `env : Option String`, the value of that variable at the
  moment of the call.
* The shared pool state (`VanityAddressPool`) becomes a record: the
  `VecDeque` is a `List` with its front at the head, the `AtomicBool` a
  `Bool`, the stored `JoinHandle` an `Option Unit`.  The extra field
  `liveThreads` is verification ghost state counting the supervisor
  threads currently alive (incremented by `thread::spawn`, decremented
  when the supervisor closure returns or is joined).
* Concurrency is modelled as interleavings of atomic operations: a `Cmd`
  trace interleaves the consumer-side calls with the individual actions
  of the supervisor loop body (one successful search round and push, and
  the target-reached exit).
-/

/-! ## Constants (vanity_address.rs lines 15-17, 261) -/

def TARGET_VANITY_COUNT : Nat := 10

def VANITY_SUFFIX : String := "pump"

/-- Batch size of one parallel search round: `(0..100_000).into_par_iter()`. -/
def ROUND_BATCH_SIZE : Nat := 100000

/-! ## Configuration (vanity_address.rs lines 296-311) -/

/-- Model of Rust `str::to_lowercase`.  Per-character ASCII lowercasing is
adequate here: only ASCII uppercase letters lowercase to the ASCII letters
of `"true"`, so equality with `"true"` agrees with the Unicode mapping. -/
def rustToLowercase (s : String) : String :=
  String.mk (s.data.map Char.toLower)

structure VanityConfig where
  enabled : Bool
deriving DecidableEq

/-- Model of `VanityConfig::from_env`: reads `VANITY_ENABLED` (the `env` argument is
its current value, `none` when unset), defaulting to `"true"`, and compares
its lowercasing with `"true"`. -/
def VanityConfig.from_env (env : Option String) : VanityConfig :=
  let env_value := env.getD "true"
  { enabled := rustToLowercase env_value == "true" }

/-- Model of `VanityAddressPool::is_vanity_enabled` (a `&self` method whose body
ignores `self`): calls `VanityConfig::from_env()` afresh and returns its
`enabled` field.  `env` is the value of `VANITY_ENABLED` at call time. -/
def is_vanity_enabled (env : Option String) : Bool :=
  (VanityConfig.from_env env).enabled

/-! ## Suffix search (vanity_address.rs lines 248-292) -/

/-- Model of Rust `str::ends_with`: the candidate's character sequence ends
with the pattern's character sequence.  (For valid UTF-8 text, byte-level
and character-level suffixes coincide, so this is the predicate
`pubkey_str.ends_with(suffix)` of the source.) -/
def rust_ends_with (s pat : String) : Bool :=
  pat.data.isSuffixOf s.data

/-- One parallel batch, sequentialised: scan candidates `gen base`,
`gen (base+1)`, ... (at most `k` of them), returning the first whose text
ends with `suffix`.  Mirrors the worker body: only a candidate passing
`pubkey_str.ends_with(suffix)` is ever stored into `result`. -/
def searchBatch (suffix : String) (gen : Nat → String) (base : Nat) : Nat → Option String
  | 0 => none
  | k + 1 =>
    if rust_ends_with (gen base) suffix then some (gen base)
    else searchBatch suffix gen (base + 1) k

/-- Model of `VanityAddressPool::find_vanity_address_with_suffix`, with the
`while !found` loop given `fuel` rounds of `ROUND_BATCH_SIZE` candidates
each.  Returns the address text of the found keypair. -/
def find_vanity_address_with_suffix (suffix : String) (gen : Nat → String) (base : Nat) :
    Nat → Option String
  | 0 => none
  | fuel + 1 =>
    match searchBatch suffix gen base ROUND_BATCH_SIZE with
    | some a => some a
    | none => find_vanity_address_with_suffix suffix gen (base + ROUND_BATCH_SIZE) fuel

theorem searchBatch_ends_with (suffix : String) (gen : Nat → String) :
    ∀ (k base : Nat) (a : String), searchBatch suffix gen base k = some a →
      rust_ends_with a suffix = true := by
  intro k
  induction k with
  | zero => intro base a h; simp [searchBatch] at h
  | succ k ih =>
    intro base a h
    by_cases hm : rust_ends_with (gen base) suffix
    · rw [searchBatch, if_pos hm] at h
      cases h
      exact hm
    · rw [searchBatch, if_neg hm] at h
      exact ih (base + 1) a h

/-- Soundness of the search: any returned address ends with the suffix. -/
theorem find_vanity_ends_with (suffix : String) (gen : Nat → String) :
    ∀ (fuel base : Nat) (a : String),
      find_vanity_address_with_suffix suffix gen base fuel = some a →
      rust_ends_with a suffix = true := by
  intro fuel
  induction fuel with
  | zero => intro base a h; simp [find_vanity_address_with_suffix] at h
  | succ fuel ih =>
    intro base a h
    rw [find_vanity_address_with_suffix] at h
    cases hb : searchBatch suffix gen base ROUND_BATCH_SIZE with
    | some b =>
      rw [hb] at h
      cases h
      exact searchBatch_ends_with suffix gen ROUND_BATCH_SIZE base a hb
    | none =>
      rw [hb] at h
      exact ih (base + ROUND_BATCH_SIZE) a h

/-! ## Pool state (vanity_address.rs lines 67-89) -/

/-- Model of `GeneratedVanityAddress`: the keypair is abstracted to the base-58 text
of its public key (field `address`); `seed` is the human-readable label
`format!("vanity_{}", current_count)` built at push time. -/
structure GeneratedVanityAddress where
  address : String
  seed : String
deriving DecidableEq

/-- Model of `VanityAddressPool`.  `generated_addresses` is the `VecDeque` with its
front at the list head; `is_generating` the `AtomicBool`; `generation_thread`
the stored `Option<JoinHandle<()>>`.  `liveThreads` is ghost state counting
currently-running supervisor threads. -/
structure VanityAddressPool where
  generated_addresses : List GeneratedVanityAddress
  is_generating : Bool
  generation_thread : Option Unit
  liveThreads : Nat
deriving DecidableEq

/-- Model of `VanityAddressPool::new`. -/
def VanityAddressPool.new : VanityAddressPool :=
  { generated_addresses := []
    is_generating := false
    generation_thread := none
    liveThreads := 0 }

/-- Model of `has_generated_addresses`: `!pool.is_empty()`. -/
def VanityAddressPool.has_generated_addresses (s : VanityAddressPool) : Bool :=
  !s.generated_addresses.isEmpty

/-- Model of `generated_addresses_count`: `pool.len()`. -/
def VanityAddressPool.generated_addresses_count (s : VanityAddressPool) : Nat :=
  s.generated_addresses.length

/-- Model of `get_vanity_status`: `(has_generated_addresses(), generated_addresses_count())`. -/
def VanityAddressPool.get_vanity_status (s : VanityAddressPool) : Bool × Nat :=
  (s.has_generated_addresses, s.generated_addresses_count)

/-- Model of `is_generation_running`: `is_generating.load(SeqCst)`. -/
def VanityAddressPool.is_generation_running (s : VanityAddressPool) : Bool :=
  s.is_generating

/-- Result of a Rust `anyhow::Result<()>` call. -/
inductive RustResult where
  | ok
  | err
deriving DecidableEq

/-- Model of `start_background_generation`: early-returns `Ok` when `is_generating`
is already set; otherwise stores `true` into `is_generating`, spawns the
supervisor thread and stores its handle, returning `Ok`.  Note that it never
consults `VanityConfig`/`VANITY_ENABLED`. -/
def start_background_generation (s : VanityAddressPool) : VanityAddressPool × RustResult :=
  if s.is_generating then (s, RustResult.ok)
  else
    ({ s with
        is_generating := true
        generation_thread := some ()
        liveThreads := s.liveThreads + 1 },
      RustResult.ok)

/-- Model of `stop_background_generation`: early-returns when `is_generating` is
clear; otherwise stores `false`, `take`s the stored handle and joins the
supervisor thread (the join is modelled by decrementing `liveThreads`: the
supervisor observes the cleared flag and exits before `join` returns). -/
def stop_background_generation (s : VanityAddressPool) : VanityAddressPool :=
  if !s.is_generating then s
  else
    { s with
        is_generating := false
        generation_thread := none
        liveThreads := s.liveThreads - 1 }

/-- Model of `get_generated_vanity_address`: locks the pool and `pop_front`s,
returning the popped entry (if any) and the updated state. -/
def get_generated_vanity_address (s : VanityAddressPool) :
    Option GeneratedVanityAddress × VanityAddressPool :=
  (s.generated_addresses.head?,
    { s with generated_addresses := s.generated_addresses.tail })

/-- One iteration of the supervisor loop body that runs a search round
(vanity_address.rs lines 132-177): enabled only while `is_generating` holds
and the pool length is still below `TARGET_VANITY_COUNT`; on a successful
`find_vanity_address_with_suffix` it yields the entry that gets
`push_back`ed (seed `"vanity_" ++ current_count`), on a failed round
(`else { error!(...) }`) nothing is pushed. -/
def produceAttempt (s : VanityAddressPool) (gen : Nat → String) (fuel : Nat) :
    Option GeneratedVanityAddress :=
  if s.is_generating = true ∧ s.generated_addresses.length < TARGET_VANITY_COUNT then
    match find_vanity_address_with_suffix VANITY_SUFFIX gen 0 fuel with
    | some a => some { address := a, seed := "vanity_" ++ toString s.generated_addresses.length }
    | none => none
  else none

/-- The supervisor's target-reached exit (vanity_address.rs lines 138-141
and 186): when the loop observes `pool.len() >= TARGET_VANITY_COUNT` it
breaks, stores `false` into `is_generating` and the thread terminates —
leaving the stored `JoinHandle` in place. -/
def supervisorTargetExit (s : VanityAddressPool) : VanityAddressPool :=
  if s.is_generating = true ∧ TARGET_VANITY_COUNT ≤ s.generated_addresses.length then
    { s with is_generating := false, liveThreads := s.liveThreads - 1 }
  else s

/-! ## Global singleton (vanity_address.rs lines 313-351) and its
consumers (create_token.rs lines 117-133) -/

/-- Model of `get_global_vanity_pool`: `GLOBAL_VANITY_POOL.get().cloned()`.  The
`OnceLock` content is the `g` argument (`none` = not yet initialized). -/
def get_global_vanity_pool (g : Option VanityAddressPool) : Option VanityAddressPool :=
  g

/-- Model of `get_global_vanity_status`: status triple from the global pool, or
`(false, 0, false)` when the singleton is uninitialized. -/
def get_global_vanity_status (g : Option VanityAddressPool) : Bool × Nat × Bool :=
  match get_global_vanity_pool g with
  | some pool =>
    (pool.has_generated_addresses, pool.generated_addresses_count, pool.is_generation_running)
  | none => (false, 0, false)

/-- Model of `init_global_vanity_pool`: no-op when already initialized; otherwise
creates a fresh pool, immediately starts background generation (without
consulting `VANITY_ENABLED`), and stores it in the `OnceLock`. -/
def init_global_vanity_pool (g : Option VanityAddressPool) :
    Option VanityAddressPool × RustResult :=
  match g with
  | some _ => (g, RustResult.ok)
  | none =>
    let started := start_background_generation VanityAddressPool.new
    (some started.1, started.2)

/-- Model of `TokenCreator::get_vanity_status` (create_token.rs lines 118-124):
`(false, 0)` when the global pool is uninitialized. -/
def TokenCreator.get_vanity_status (g : Option VanityAddressPool) : Bool × Nat :=
  match get_global_vanity_pool g with
  | some pool => pool.get_vanity_status
  | none => (false, 0)

/-- Model of `TokenCreator::get_generated_vanity_status` (create_token.rs lines
127-133): `(false, 0, false)` when the global pool is uninitialized. -/
def TokenCreator.get_generated_vanity_status (g : Option VanityAddressPool) :
    Bool × Nat × Bool :=
  match get_global_vanity_pool g with
  | some pool =>
    (pool.has_generated_addresses, pool.generated_addresses_count, pool.is_generation_running)
  | none => (false, 0, false)

/-! ## Interleaving semantics -/

/-- One atomic action of an execution: consumer-side calls (`start`, `stop`,
`acquire`, `query`) interleaved with the supervisor's own actions
(`produce` = one search round ending in a push, `targetExit` = the
target-reached break).  `query` stands for any of the read-only calls
`has_generated_addresses` / `generated_addresses_count` /
`get_vanity_status` / `is_generation_running`. -/
inductive Cmd where
  | start
  | stop
  | produce (gen : Nat → String) (fuel : Nat)
  | targetExit
  | acquire
  | query

def Cmd.isAcquire : Cmd → Bool
  | Cmd.acquire => true
  | _ => false

def Cmd.isStart : Cmd → Bool
  | Cmd.start => true
  | _ => false

def Cmd.isProduce : Cmd → Bool
  | Cmd.produce _ _ => true
  | _ => false

def Cmd.isQuery : Cmd → Bool
  | Cmd.query => true
  | _ => false

/-- State transition of one atomic action. -/
def stepCmd (s : VanityAddressPool) : Cmd → VanityAddressPool
  | Cmd.start => (start_background_generation s).1
  | Cmd.stop => stop_background_generation s
  | Cmd.produce gen fuel =>
    { s with generated_addresses := s.generated_addresses ++ (produceAttempt s gen fuel).toList }
  | Cmd.targetExit => supervisorTargetExit s
  | Cmd.acquire => (get_generated_vanity_address s).2
  | Cmd.query => s

/-- Run a trace of atomic actions. -/
def runCmds (s : VanityAddressPool) : List Cmd → VanityAddressPool
  | [] => s
  | c :: cs => runCmds (stepCmd s c) cs

/-- The entries pushed into the pool along a trace, in push order. -/
def pushLog (s : VanityAddressPool) : List Cmd → List GeneratedVanityAddress
  | [] => []
  | c :: cs =>
    (match c with
      | Cmd.produce gen fuel => (produceAttempt s gen fuel).toList
      | _ => []) ++ pushLog (stepCmd s c) cs

/-- The successive results of the `get_generated_vanity_address` calls of a
trace, in call order. -/
def acquireOutputs (s : VanityAddressPool) : List Cmd → List (Option GeneratedVanityAddress)
  | [] => []
  | c :: cs =>
    (match c with
      | Cmd.acquire => [(get_generated_vanity_address s).1]
      | _ => []) ++ acquireOutputs (stepCmd s c) cs

/-- Number of `acquire` actions in a trace. -/
def countAcquires (cs : List Cmd) : Nat :=
  (cs.filter Cmd.isAcquire).length

/-! ## Basic step lemmas -/

theorem start_pool (s : VanityAddressPool) :
    (start_background_generation s).1.generated_addresses = s.generated_addresses := by
  unfold start_background_generation
  split <;> rfl

theorem stop_pool (s : VanityAddressPool) :
    (stop_background_generation s).generated_addresses = s.generated_addresses := by
  unfold stop_background_generation
  split <;> rfl

theorem targetExit_pool (s : VanityAddressPool) :
    (supervisorTargetExit s).generated_addresses = s.generated_addresses := by
  unfold supervisorTargetExit
  split <;> rfl

theorem produceAttempt_ends_with (s : VanityAddressPool) (gen : Nat → String) (fuel : Nat)
    (e : GeneratedVanityAddress) (h : produceAttempt s gen fuel = some e) :
    rust_ends_with e.address VANITY_SUFFIX = true := by
  unfold produceAttempt at h
  split at h
  · cases hf : find_vanity_address_with_suffix VANITY_SUFFIX gen 0 fuel with
    | some a =>
      rw [hf] at h
      cases h
      exact find_vanity_ends_with VANITY_SUFFIX gen fuel 0 a hf
    | none => rw [hf] at h; cases h
  · cases h

theorem produceAttempt_some_lt (s : VanityAddressPool) (gen : Nat → String) (fuel : Nat)
    (e : GeneratedVanityAddress) (h : produceAttempt s gen fuel = some e) :
    s.generated_addresses.length < TARGET_VANITY_COUNT := by
  unfold produceAttempt at h
  split at h
  · rename_i hc
    exact hc.2
  · cases h

theorem produceAttempt_none (s : VanityAddressPool) (gen : Nat → String) (fuel : Nat)
    (h : s.is_generating = false) : produceAttempt s gen fuel = none := by
  have hneg : ¬(s.is_generating = true ∧
      s.generated_addresses.length < TARGET_VANITY_COUNT) := by
    intro hc
    rw [h] at hc
    exact Bool.false_ne_true hc.1
  unfold produceAttempt
  rw [if_neg hneg]

/-! ## The suffix invariant of the pool (claim C1) -/

theorem runCmds_pool_ends_with :
    ∀ (cs : List Cmd) (s : VanityAddressPool),
      (∀ e ∈ s.generated_addresses, rust_ends_with e.address VANITY_SUFFIX = true) →
      ∀ e ∈ (runCmds s cs).generated_addresses, rust_ends_with e.address VANITY_SUFFIX = true := by
  intro cs
  induction cs with
  | nil => intro s h; exact h
  | cons c cs ih =>
    intro s h
    refine ih (stepCmd s c) ?_
    cases c with
    | start => simpa [stepCmd, start_pool] using h
    | stop => simpa [stepCmd, stop_pool] using h
    | targetExit => simpa [stepCmd, targetExit_pool] using h
    | query => simpa [stepCmd] using h
    | acquire =>
      intro e he
      simp only [stepCmd, get_generated_vanity_address] at he
      exact h e (List.mem_of_mem_tail he)
    | produce gen fuel =>
      intro e he
      simp only [stepCmd, List.mem_append] at he
      rcases he with he | he
      · exact h e he
      · rw [Option.mem_toList, Option.mem_def] at he
        exact produceAttempt_ends_with s gen fuel e he

/-! ## The pool-length invariant (claim C5) -/

theorem runCmds_length_le :
    ∀ (cs : List Cmd) (s : VanityAddressPool),
      s.generated_addresses.length ≤ TARGET_VANITY_COUNT →
      (runCmds s cs).generated_addresses.length ≤ TARGET_VANITY_COUNT := by
  intro cs
  induction cs with
  | nil => intro s h; exact h
  | cons c cs ih =>
    intro s h
    refine ih (stepCmd s c) ?_
    cases c with
    | start => simpa [stepCmd, start_pool] using h
    | stop => simpa [stepCmd, stop_pool] using h
    | targetExit => simpa [stepCmd, targetExit_pool] using h
    | query => simpa [stepCmd] using h
    | acquire =>
      simp only [stepCmd, get_generated_vanity_address, List.length_tail]
      omega
    | produce gen fuel =>
      cases hp : produceAttempt s gen fuel with
      | none => simpa [stepCmd, hp] using h
      | some e =>
        have hlt := produceAttempt_some_lt s gen fuel e hp
        simp only [stepCmd, hp, Option.toList_some, List.length_append, List.length_cons,
          List.length_nil]
        omega

/-! ## After stop: the flag stays clear and nothing is appended (claim C7) -/

theorem stepCmd_no_start (s : VanityAddressPool) (c : Cmd)
    (hflag : s.is_generating = false) (hc : c.isStart = false) :
    (stepCmd s c).is_generating = false ∧
    (stepCmd s c).generated_addresses.IsSuffix s.generated_addresses := by
  cases c with
  | start => simp [Cmd.isStart] at hc
  | stop =>
    have hs : stepCmd s Cmd.stop = s := by
      simp [stepCmd, stop_background_generation, hflag]
    rw [hs]
    exact ⟨hflag, List.suffix_refl _⟩
  | produce gen fuel =>
    have hnone := produceAttempt_none s gen fuel hflag
    have hs : stepCmd s (Cmd.produce gen fuel) = s := by
      simp [stepCmd, hnone]
    rw [hs]
    exact ⟨hflag, List.suffix_refl _⟩
  | targetExit =>
    have hs : stepCmd s Cmd.targetExit = s := by
      simp [stepCmd, supervisorTargetExit, hflag]
    rw [hs]
    exact ⟨hflag, List.suffix_refl _⟩
  | acquire =>
    refine ⟨hflag, ?_⟩
    simp only [stepCmd, get_generated_vanity_address]
    exact List.tail_suffix _
  | query => exact ⟨hflag, List.suffix_refl _⟩

theorem runCmds_no_start :
    ∀ (cs : List Cmd) (s : VanityAddressPool),
      s.is_generating = false →
      (∀ c ∈ cs, c.isStart = false) →
      (runCmds s cs).is_generating = false ∧
      (runCmds s cs).generated_addresses.IsSuffix s.generated_addresses := by
  intro cs
  induction cs with
  | nil => intro s h _; exact ⟨h, List.suffix_refl _⟩
  | cons c cs ih =>
    intro s h hall
    have hc := hall c (List.mem_cons_self c cs)
    have hrest : ∀ c2 ∈ cs, c2.isStart = false :=
      fun c2 hm => hall c2 (List.mem_cons_of_mem c hm)
    obtain ⟨hf, hsuf⟩ := stepCmd_no_start s c h hc
    obtain ⟨hf2, hsuf2⟩ := ih (stepCmd s c) hf hrest
    exact ⟨hf2, hsuf2.trans hsuf⟩

/-! ## FIFO lemmas (claim C4) -/

theorem runCmds_pool_eq_pushLog :
    ∀ (cs : List Cmd) (s : VanityAddressPool),
      (∀ c ∈ cs, c.isAcquire = false) →
      (runCmds s cs).generated_addresses = s.generated_addresses ++ pushLog s cs := by
  intro cs
  induction cs with
  | nil => intro s _; simp [runCmds, pushLog]
  | cons c cs ih =>
    intro s h
    have hc := h c (List.mem_cons_self c cs)
    have hrest : ∀ c2 ∈ cs, c2.isAcquire = false :=
      fun c2 hm => h c2 (List.mem_cons_of_mem c hm)
    cases c with
    | acquire => simp [Cmd.isAcquire] at hc
    | produce gen fuel =>
      simp only [runCmds, pushLog]
      rw [ih _ hrest]
      simp [stepCmd, List.append_assoc]
    | start =>
      simp only [runCmds, pushLog]
      rw [ih _ hrest]
      simp [stepCmd, start_pool]
    | stop =>
      simp only [runCmds, pushLog]
      rw [ih _ hrest]
      simp [stepCmd, stop_pool]
    | targetExit =>
      simp only [runCmds, pushLog]
      rw [ih _ hrest]
      simp [stepCmd, targetExit_pool]
    | query =>
      simp only [runCmds, pushLog]
      rw [ih _ hrest]
      simp [stepCmd]

theorem acquireOutputs_fifo :
    ∀ (ds : List Cmd) (s : VanityAddressPool),
      (∀ c ∈ ds, c.isAcquire = true ∨ c.isQuery = true) →
      countAcquires ds = s.generated_addresses.length →
      acquireOutputs s ds = s.generated_addresses.map some := by
  intro ds
  induction ds with
  | nil =>
    intro s _ hcount
    have hpool : s.generated_addresses = [] := by
      refine List.length_eq_zero.mp ?_
      simpa [countAcquires] using hcount.symm
    simp [acquireOutputs, hpool]
  | cons c ds ih =>
    intro s h hcount
    have hc := h c (List.mem_cons_self c ds)
    have hrest : ∀ c2 ∈ ds, c2.isAcquire = true ∨ c2.isQuery = true :=
      fun c2 hm => h c2 (List.mem_cons_of_mem c hm)
    cases c with
    | start => simp [Cmd.isAcquire, Cmd.isQuery] at hc
    | stop => simp [Cmd.isAcquire, Cmd.isQuery] at hc
    | produce gen fuel => simp [Cmd.isAcquire, Cmd.isQuery] at hc
    | targetExit => simp [Cmd.isAcquire, Cmd.isQuery] at hc
    | query =>
      have hcount2 : countAcquires ds = s.generated_addresses.length := by
        simpa [countAcquires, List.filter_cons, Cmd.isAcquire] using hcount
      simp only [acquireOutputs]
      simpa [stepCmd] using ih s hrest hcount2
    | acquire =>
      have hcount2 : countAcquires ds + 1 = s.generated_addresses.length := by
        simpa [countAcquires, List.filter_cons, Cmd.isAcquire] using hcount
      cases hl : s.generated_addresses with
      | nil => rw [hl] at hcount2; simp at hcount2
      | cons e rest =>
        have hstep : (stepCmd s Cmd.acquire).generated_addresses = rest := by
          simp [stepCmd, get_generated_vanity_address, hl]
        have hcount3 : countAcquires ds = (stepCmd s Cmd.acquire).generated_addresses.length := by
          rw [hstep]
          rw [hl] at hcount2
          simpa using hcount2
        simp only [acquireOutputs]
        rw [ih (stepCmd s Cmd.acquire) hrest hcount3, hstep]
        simp [get_generated_vanity_address, hl]

/-! ## Thread/handle invariant (claim C8) -/

/-- The invariant that actually holds of the engine state: at most one live
supervisor thread, the flag tracks thread liveness, and a running generation
always has a stored handle.  (The stored handle can outlive the flag: the
target-reached exit clears `is_generating` but never clears
`generation_thread`.) -/
def EngineInv (s : VanityAddressPool) : Prop :=
  s.liveThreads ≤ 1 ∧
  (s.is_generating = true ↔ s.liveThreads = 1) ∧
  (s.is_generating = true → s.generation_thread = some ())

theorem stepCmd_EngineInv (s : VanityAddressPool) (c : Cmd) (h : EngineInv s) :
    EngineInv (stepCmd s c) := by
  obtain ⟨h1, h2, h3⟩ := h
  cases c with
  | start =>
    by_cases hg : s.is_generating = true
    · have hs : stepCmd s Cmd.start = s := by
        simp [stepCmd, start_background_generation, hg]
      rw [hs]
      exact ⟨h1, h2, h3⟩
    · rw [Bool.not_eq_true] at hg
      have hl0 : s.liveThreads = 0 := by
        have hne : s.liveThreads ≠ 1 := by
          intro he
          rw [h2.mpr he] at hg
          cases hg
        omega
      simp [stepCmd, start_background_generation, hg, EngineInv, hl0]
  | stop =>
    by_cases hg : s.is_generating = true
    · have hl := h2.mp hg
      simp [stepCmd, stop_background_generation, hg, EngineInv, hl]
    · rw [Bool.not_eq_true] at hg
      have hs : stepCmd s Cmd.stop = s := by
        simp [stepCmd, stop_background_generation, hg]
      rw [hs]
      exact ⟨h1, h2, h3⟩
  | targetExit =>
    by_cases hg : s.is_generating = true ∧
        TARGET_VANITY_COUNT ≤ s.generated_addresses.length
    · have hl := h2.mp hg.1
      simp only [stepCmd, supervisorTargetExit]
      rw [if_pos hg]
      simp [EngineInv, hl]
    · have hs : stepCmd s Cmd.targetExit = s := by
        simp only [stepCmd, supervisorTargetExit]
        rw [if_neg hg]
      rw [hs]
      exact ⟨h1, h2, h3⟩
  | produce gen fuel => exact ⟨h1, h2, h3⟩
  | acquire => exact ⟨h1, h2, h3⟩
  | query => exact ⟨h1, h2, h3⟩

theorem runCmds_EngineInv (cs : List Cmd) :
    ∀ s : VanityAddressPool, EngineInv s → EngineInv (runCmds s cs) := by
  induction cs with
  | nil => intro s h; exact h
  | cons c cs ih => intro s h; exact ih _ (stepCmd_EngineInv s c h)

theorem EngineInv_new : EngineInv VanityAddressPool.new := by
  unfold EngineInv VanityAddressPool.new
  refine ⟨by decide, by simp, by simp⟩

/-! ## Claim theorems -/

/-- C1: every entry pushed into the pool by the supervisor, and hence every
entry returned by `get_generated_vanity_address`, has an address whose
base-58 text ends with the configured suffix; and
`find_vanity_address_with_suffix` returns only addresses satisfying the
suffix predicate. -/
theorem C1_entries_end_with_suffix :
    (∀ (suffix : String) (gen : Nat → String) (base fuel : Nat) (a : String),
        find_vanity_address_with_suffix suffix gen base fuel = some a →
        rust_ends_with a suffix = true) ∧
    (∀ (cs : List Cmd) (e : GeneratedVanityAddress),
        e ∈ (runCmds VanityAddressPool.new cs).generated_addresses →
        rust_ends_with e.address VANITY_SUFFIX = true) ∧
    (∀ (cs : List Cmd) (e : GeneratedVanityAddress),
        (get_generated_vanity_address (runCmds VanityAddressPool.new cs)).1 = some e →
        rust_ends_with e.address VANITY_SUFFIX = true) := by
  refine ⟨fun suffix gen base fuel a h => find_vanity_ends_with suffix gen fuel base a h,
    ?_, ?_⟩
  · intro cs e he
    refine runCmds_pool_ends_with cs VanityAddressPool.new ?_ e he
    intro e2 he2
    simp [VanityAddressPool.new] at he2
  · intro cs e he
    have hmem : e ∈ (runCmds VanityAddressPool.new cs).generated_addresses :=
      List.mem_of_mem_head? (by rw [Option.mem_def]; exact he)
    refine runCmds_pool_ends_with cs VanityAddressPool.new ?_ e hmem
    intro e2 he2
    simp [VanityAddressPool.new] at he2

/-- C1 witness: a concrete run in which one round finds "xpump" and the
entry popped from the pool indeed ends with "pump". -/
theorem C1_witness :
    rust_ends_with "xpump" "pump" = true :=
  C1_entries_end_with_suffix.2.2
    [Cmd.start, Cmd.produce (fun _ => "xpump") 1]
    { address := "xpump", seed := "vanity_0" }
    (by decide)

/-- C2 counterexample: with `VANITY_ENABLED` set to `"false"` the enablement
flag is off, yet `start_background_generation` on a fresh pool still spawns
the supervisor and reports `is_running = true`; `init_global_vanity_pool`
likewise starts generation unconditionally, so the freshly-initialized
global status already shows `is_running = true`. -/
theorem C2_counterexample :
    is_vanity_enabled (some "false") = false ∧
    (start_background_generation VanityAddressPool.new).1.is_generation_running = true ∧
    (start_background_generation VanityAddressPool.new).1.liveThreads = 1 ∧
    get_global_vanity_status (init_global_vanity_pool none).1 = (false, 0, true) := by
  decide

/-- C2 (amended): `start_background_generation` never consults the
enablement flag.  Even under a configuration where `is_vanity_enabled` is
false, a call on a non-running pool returns Ok, sets `is_generating` and
spawns a supervisor thread; the call is a no-op (still Ok) only when
generation is already running. -/
theorem C2_start_ignores_enabled_flag :
    ∀ (env : Option String) (s : VanityAddressPool),
      is_vanity_enabled env = false →
      (s.is_generating = true → start_background_generation s = (s, RustResult.ok)) ∧
      (s.is_generating = false →
        (start_background_generation s).2 = RustResult.ok ∧
        (start_background_generation s).1.is_generating = true ∧
        (start_background_generation s).1.liveThreads = s.liveThreads + 1) := by
  intro env s _
  constructor
  · intro h
    simp [start_background_generation, h]
  · intro h
    simp [start_background_generation, h]

/-- C2 witness: the amended claim at the disabled configuration and a fresh
pool. -/
theorem C2_witness :
    (start_background_generation VanityAddressPool.new).2 = RustResult.ok ∧
    (start_background_generation VanityAddressPool.new).1.is_generating = true ∧
    (start_background_generation VanityAddressPool.new).1.liveThreads
      = VanityAddressPool.new.liveThreads + 1 :=
  (C2_start_ignores_enabled_flag (some "false") VanityAddressPool.new (by decide)).2 (by decide)

/-- C3 counterexample: two calls to `is_vanity_enabled` return different
values when `VANITY_ENABLED` changes from `"true"` to `"false"` between
them — the configuration is re-read from the environment on every call, not
read once at startup. -/
theorem C3_counterexample :
    ¬ (is_vanity_enabled (some "true") = is_vanity_enabled (some "false")) := by
  decide

/-- C3 (amended): `is_vanity_enabled` re-reads the environment on each call
(it calls `VanityConfig::from_env()` afresh): two calls agree exactly when
the configurations computed from the two environment snapshots agree — in
particular they agree whenever `VANITY_ENABLED` is unchanged, but not in
general. -/
theorem C3_enabled_tracks_environment :
    ∀ e1 e2 : Option String,
      is_vanity_enabled e1 = is_vanity_enabled e2 ↔
        VanityConfig.from_env e1 = VanityConfig.from_env e2 := by
  intro e1 e2
  unfold is_vanity_enabled
  cases h1 : VanityConfig.from_env e1 with
  | mk b1 =>
    cases h2 : VanityConfig.from_env e2 with
    | mk b2 => simp

/-- C3 witness: the amended claim at a pair of environments computing the
same configuration. -/
theorem C3_witness :
    is_vanity_enabled none = is_vanity_enabled (some "TRUE") :=
  (C3_enabled_tracks_environment none (some "TRUE")).mpr (by decide)

/-- C9: `from_env` yields `enabled = true` iff `VANITY_ENABLED` is unset or
its value lowercases to `"true"`; the engine defaults to enabled when the
variable is absent, and values such as `"1"` or `"yes"` yield
`enabled = false`. -/
theorem C9_from_env_semantics :
    ∀ env : Option String,
      ((VanityConfig.from_env env).enabled = true ↔
        (env = none ∨ ∃ v, env = some v ∧ rustToLowercase v = "true")) ∧
      (VanityConfig.from_env none).enabled = true ∧
      (VanityConfig.from_env (some "TRUE")).enabled = true ∧
      (VanityConfig.from_env (some "1")).enabled = false ∧
      (VanityConfig.from_env (some "yes")).enabled = false := by
  intro env
  refine ⟨?_, by decide, by decide, by decide, by decide⟩
  cases env with
  | none =>
    have h : (VanityConfig.from_env none).enabled = true := by decide
    simp [h]
  | some v =>
    simp [VanityConfig.from_env]

/-- C9 witness: the iff applied at a mixed-case value. -/
theorem C9_witness :
    (VanityConfig.from_env (some "True")).enabled = true :=
  ((C9_from_env_semantics (some "True")).1).mpr (Or.inr ⟨"True", rfl, by decide⟩)

/-- C10: with the global singleton uninitialized, `get_global_vanity_pool`
returns `none`, `get_global_vanity_status` returns `(false, 0, false)`, and
the `TokenCreator` wrappers return `(false, 0)` and `(false, 0, false)`. -/
theorem C10_uninitialized_global_status :
    get_global_vanity_pool none = none ∧
    get_global_vanity_status none = (false, 0, false) ∧
    TokenCreator.get_vanity_status none = (false, 0) ∧
    TokenCreator.get_generated_vanity_status none = (false, 0, false) := by
  decide

/-- C4: for any production phase whose successful rounds push entries
E1, ..., En in that order (interleaved with arbitrarily many status
queries), the pool contains exactly those entries in that order, and a
subsequent phase of `get_generated_vanity_address` calls (again interleaved
with arbitrarily many status queries) returns exactly those entries in
exactly that order. -/
theorem C4_fifo_order :
    ∀ (s : VanityAddressPool) (cs ds : List Cmd),
      s.generated_addresses = [] →
      (∀ c ∈ cs, c.isProduce = true ∨ c.isQuery = true) →
      (∀ c ∈ ds, c.isAcquire = true ∨ c.isQuery = true) →
      countAcquires ds = (runCmds s cs).generated_addresses.length →
      (runCmds s cs).generated_addresses = pushLog s cs ∧
      acquireOutputs (runCmds s cs) ds = (pushLog s cs).map some := by
  intro s cs ds hempty hcs hds hcount
  have hnoacq : ∀ c ∈ cs, c.isAcquire = false := by
    intro c hm
    rcases hcs c hm with h | h <;>
      cases c <;> simp_all [Cmd.isProduce, Cmd.isQuery, Cmd.isAcquire]
  have hpool : (runCmds s cs).generated_addresses = pushLog s cs := by
    rw [runCmds_pool_eq_pushLog cs s hnoacq, hempty, List.nil_append]
  refine ⟨hpool, ?_⟩
  rw [acquireOutputs_fifo ds (runCmds s cs) hds hcount, hpool]

/-- C4 witness: two successful rounds ("apump" then "bpump") with
interleaved queries; the two acquires return them in generation order. -/
theorem C4_witness :
    acquireOutputs
      (runCmds (start_background_generation VanityAddressPool.new).1
        [Cmd.produce (fun _ => "apump") 1, Cmd.query, Cmd.produce (fun _ => "bpump") 1])
      [Cmd.query, Cmd.acquire, Cmd.query, Cmd.acquire]
    = (pushLog (start_background_generation VanityAddressPool.new).1
        [Cmd.produce (fun _ => "apump") 1, Cmd.query, Cmd.produce (fun _ => "bpump") 1]).map
        some :=
  (C4_fifo_order (start_background_generation VanityAddressPool.new).1
    [Cmd.produce (fun _ => "apump") 1, Cmd.query, Cmd.produce (fun _ => "bpump") 1]
    [Cmd.query, Cmd.acquire, Cmd.query, Cmd.acquire]
    (by decide) (by decide) (by decide) (by decide)).2

/-- C5: with the configured target count `TARGET_VANITY_COUNT = 10`: a
search round attempted at a pool of length ≥ 10 pushes nothing (the
supervisor stops generating without being asked); the supervisor's exit on
observing the target leaves `is_generation_running` false (and the pool
untouched); and along any trace without consumption the pool length never
exceeds 10. -/
theorem C5_target_count_stops_generation :
    (∀ (s : VanityAddressPool) (gen : Nat → String) (fuel : Nat),
        TARGET_VANITY_COUNT ≤ s.generated_addresses.length →
        stepCmd s (Cmd.produce gen fuel) = s) ∧
    (∀ s : VanityAddressPool,
        s.is_generating = true →
        TARGET_VANITY_COUNT ≤ s.generated_addresses.length →
        (supervisorTargetExit s).is_generation_running = false ∧
        (supervisorTargetExit s).generated_addresses = s.generated_addresses) ∧
    (∀ cs : List Cmd,
        (∀ c ∈ cs, c.isAcquire = false) →
        (runCmds VanityAddressPool.new cs).generated_addresses.length
          ≤ TARGET_VANITY_COUNT) := by
  refine ⟨?_, ?_, ?_⟩
  · intro s gen fuel h
    have hneg : ¬(s.is_generating = true ∧
        s.generated_addresses.length < TARGET_VANITY_COUNT) := by
      intro hc
      exact absurd hc.2 (Nat.not_lt.mpr h)
    have hnone : produceAttempt s gen fuel = none := by
      unfold produceAttempt
      rw [if_neg hneg]
    simp [stepCmd, hnone]
  · intro s h1 h2
    unfold supervisorTargetExit
    rw [if_pos ⟨h1, h2⟩]
    exact ⟨rfl, rfl⟩
  · intro cs _
    refine runCmds_length_le cs VanityAddressPool.new ?_
    decide

/-- C5 witness: at a pool already holding ten entries a further round is a
no-op, the target exit clears the running flag, and a concrete
consumption-free trace stays within the target. -/
theorem C5_witness :
    stepCmd
      { generated_addresses := List.replicate 10 { address := "pump", seed := "w" }
        is_generating := true
        generation_thread := some ()
        liveThreads := 1 }
      (Cmd.produce (fun _ => "pump") 1)
    = { generated_addresses := List.replicate 10 { address := "pump", seed := "w" }
        is_generating := true
        generation_thread := some ()
        liveThreads := 1 } ∧
    (supervisorTargetExit
      { generated_addresses := List.replicate 10 { address := "pump", seed := "w" }
        is_generating := true
        generation_thread := some ()
        liveThreads := 1 }).is_generation_running = false ∧
    (runCmds VanityAddressPool.new
      [Cmd.start, Cmd.produce (fun _ => "pump") 1, Cmd.query]).generated_addresses.length
      ≤ TARGET_VANITY_COUNT :=
  ⟨C5_target_count_stops_generation.1
      { generated_addresses := List.replicate 10 { address := "pump", seed := "w" }
        is_generating := true
        generation_thread := some ()
        liveThreads := 1 }
      (fun _ => "pump") 1 (by decide),
    (C5_target_count_stops_generation.2.1
      { generated_addresses := List.replicate 10 { address := "pump", seed := "w" }
        is_generating := true
        generation_thread := some ()
        liveThreads := 1 }
      (by decide) (by decide)).1,
    C5_target_count_stops_generation.2.2
      [Cmd.start, Cmd.produce (fun _ => "pump") 1, Cmd.query] (by decide)⟩

/-- C6: calling `start_background_generation` twice in a row returns Ok
both times, the second call is a no-op, exactly one supervisor thread is
left running, and the pool entries are not duplicated (the pool is
untouched).  The hypotheses state the thread-accounting invariant every
reachable state satisfies. -/
theorem C6_start_idempotent :
    ∀ s : VanityAddressPool,
      s.liveThreads ≤ 1 →
      (s.is_generating = true ↔ s.liveThreads = 1) →
      (start_background_generation s).2 = RustResult.ok ∧
      (start_background_generation (start_background_generation s).1).2 = RustResult.ok ∧
      (start_background_generation (start_background_generation s).1).1
        = (start_background_generation s).1 ∧
      (start_background_generation (start_background_generation s).1).1.liveThreads = 1 ∧
      (start_background_generation (start_background_generation s).1).1.generated_addresses
        = s.generated_addresses := by
  intro s h1 h2
  by_cases hg : s.is_generating = true
  · have hl : s.liveThreads = 1 := h2.mp hg
    simp [start_background_generation, hg, hl]
  · rw [Bool.not_eq_true] at hg
    have hl0 : s.liveThreads = 0 := by
      have hne : s.liveThreads ≠ 1 := by
        intro he
        rw [h2.mpr he] at hg
        cases hg
      omega
    simp [start_background_generation, hg, hl0]

/-- C6 witness: two back-to-back starts on a fresh pool. -/
theorem C6_witness :
    (start_background_generation
      (start_background_generation VanityAddressPool.new).1).1.liveThreads = 1 :=
  (C6_start_idempotent VanityAddressPool.new (by decide) (by decide)).2.2.2.1

/-- C7: `stop_background_generation` is a no-op when generation is not
running; when it is running it clears the flag, takes the stored handle and
joins the supervisor (one fewer live thread), leaving the pool untouched;
and after stop returns, `is_generation_running` is false and — absent a new
`start` — no entry is ever appended to the pool again (the pool only ever
shrinks from the front). -/
theorem C7_stop_semantics :
    ∀ (s : VanityAddressPool) (cs : List Cmd),
      (s.is_generating = false → stop_background_generation s = s) ∧
      (s.is_generating = true →
        (stop_background_generation s).is_generation_running = false ∧
        (stop_background_generation s).generation_thread = none ∧
        (stop_background_generation s).liveThreads = s.liveThreads - 1 ∧
        (stop_background_generation s).generated_addresses = s.generated_addresses) ∧
      ((∀ c ∈ cs, c.isStart = false) →
        (runCmds (stop_background_generation s) cs).is_generation_running = false ∧
        (runCmds (stop_background_generation s) cs).generated_addresses.IsSuffix
          (stop_background_generation s).generated_addresses) := by
  intro s cs
  refine ⟨?_, ?_, ?_⟩
  · intro h
    simp [stop_background_generation, h]
  · intro h
    simp [stop_background_generation, VanityAddressPool.is_generation_running, h]
  · intro hall
    have hflag : (stop_background_generation s).is_generating = false := by
      by_cases h : s.is_generating = true
      · simp [stop_background_generation, h]
      · rw [Bool.not_eq_true] at h
        simp [stop_background_generation, h]
    obtain ⟨h1, h2⟩ := runCmds_no_start cs (stop_background_generation s) hflag hall
    exact ⟨h1, h2⟩

/-- C7 witness: stop a running pool, then run a start-free trace; the flag
stays down. -/
theorem C7_witness :
    (runCmds
      (stop_background_generation (start_background_generation VanityAddressPool.new).1)
      [Cmd.produce (fun _ => "pump") 1, Cmd.query]).is_generation_running = false :=
  ((C7_stop_semantics (start_background_generation VanityAddressPool.new).1
    [Cmd.produce (fun _ => "pump") 1, Cmd.query]).2.2 (by decide)).1

/-- C8 counterexample: run start, ten successful rounds, then the
supervisor's target-reached exit.  The thread clears `is_generating` on its
way out but the stored handle is never cleared, so in this reachable state
a handle exists while `is_generating` was most recently set false — the
claimed iff fails. -/
theorem C8_counterexample :
    ¬ ((runCmds VanityAddressPool.new
          (Cmd.start :: (List.replicate 10 (Cmd.produce (fun _ => "pump") 1)
            ++ [Cmd.targetExit]))).generation_thread.isSome
        = (runCmds VanityAddressPool.new
          (Cmd.start :: (List.replicate 10 (Cmd.produce (fun _ => "pump") 1)
            ++ [Cmd.targetExit]))).is_generating) := by
  decide

/-- C8 (amended): in every reachable state at most one supervisor thread is
live, a live supervisor exists exactly when `is_generating` is true, and a
running generation always has a stored handle.  (The converse direction of
the claimed iff fails: after a target-reached exit the handle remains
stored while `is_generating` is false.) -/
theorem C8_thread_handle_invariant :
    ∀ cs : List Cmd,
      (runCmds VanityAddressPool.new cs).liveThreads ≤ 1 ∧
      ((runCmds VanityAddressPool.new cs).is_generating = true ↔
        (runCmds VanityAddressPool.new cs).liveThreads = 1) ∧
      ((runCmds VanityAddressPool.new cs).is_generating = true →
        (runCmds VanityAddressPool.new cs).generation_thread = some ()) := by
  intro cs
  exact runCmds_EngineInv cs VanityAddressPool.new EngineInv_new

/-- C8 witness: after a single start the invariant yields the stored
handle. -/
theorem C8_witness :
    (runCmds VanityAddressPool.new [Cmd.start]).generation_thread = some () :=
  (C8_thread_handle_invariant [Cmd.start]).2.2 (by decide)
